import Mathlib

/-!
Verification of the asynchronous job execution and resilience layer of the
Illustration Variant Generator.

The definitions below are a shallow embedding of the Python source:

* `src/services/ai/nano_banana.py` — `_CircuitBreaker`, `_compute_backoff`,
  `_is_retryable_error`, `_call_with_timeout`,
  `NanoBananaEditor._generate_with_retries`;
* `src/routes/api.py` — `_map_task_status`, `_build_job_payload`,
  `job_stream`'s event generator.

Timestamps (`time.monotonic()`) and durations are modelled as rationals,
passed explicitly as `now` arguments.  `random.uniform(0.75, 1.25)` draws are
modelled as explicit jitter arguments, constrained to `[3/4, 5/4]` in the
theorems that need the bound.  Python float arithmetic on these small
quantities is modelled exactly over `ℚ`.
-/

namespace IVG

/-! ## Circuit breaker (`_CircuitBreaker`, nano_banana.py lines 100-128)

The Python class stores `_threshold = max(0, int(threshold))`,
`_cooldown = max(0.0, float(cooldown_seconds))`, `_failures = 0` and
`_opened_at = 0.0` (the `0.0` value doubles as the "not open" sentinel,
exactly as in the source). -/

structure Breaker where
  threshold : ℕ
  cooldown : ℚ
  failures : ℕ
  opened_at : ℚ
deriving Repr, DecidableEq

/-- Model of `_CircuitBreaker.__init__`: clamps `threshold` and `cooldown_seconds`
at zero, starts closed with a zero failure count. -/
def Breaker.init (threshold : ℤ) (cooldown_seconds : ℚ) : Breaker :=
  { threshold := (max 0 threshold).toNat
    cooldown := max 0 cooldown_seconds
    failures := 0
    opened_at := 0 }

/-- Model of `_CircuitBreaker.allow` at monotonic time `now`.  Returns the boolean the
Python method returns together with the updated breaker (the method mutates
`_opened_at`/`_failures` when the cooldown has elapsed). -/
def Breaker.allow (b : Breaker) (now : ℚ) : Bool × Breaker :=
  if b.threshold = 0 ∨ b.cooldown = 0 then (true, b)
  else if b.opened_at = 0 then (true, b)
  else if b.cooldown ≤ now - b.opened_at then
    (true, { b with opened_at := 0, failures := 0 })
  else (false, b)

/-- Model of `_CircuitBreaker.record_success`: resets the counter and closes. -/
def Breaker.record_success (b : Breaker) : Breaker :=
  { b with failures := 0, opened_at := 0 }

/-- Model of `_CircuitBreaker.record_failure` at monotonic time `now`: no-op when the
threshold is zero; otherwise increments the counter and, when the counter has
reached the threshold and a cooldown is configured, stamps `opened_at`. -/
def Breaker.record_failure (b : Breaker) (now : ℚ) : Breaker :=
  if b.threshold = 0 then b
  else if b.threshold ≤ b.failures + 1 ∧ b.cooldown ≠ 0 then
    { b with failures := b.failures + 1, opened_at := now }
  else { b with failures := b.failures + 1 }

/-- Iterated `record_failure`, all at time `now` (used to state the
"after `threshold` consecutive failures" scenarios). -/
def Breaker.record_failures (b : Breaker) (now : ℚ) : ℕ → Breaker
  | 0 => b
  | k + 1 => (b.record_failures now k).record_failure now

/-! ## Backoff (`_compute_backoff`, nano_banana.py lines 445-450)

`random.uniform(0.75, 1.25)` is modelled by the explicit argument `jitter`. -/

/-- Model of `_compute_backoff(base, cap, attempt)` with the uniform draw passed in as
`jitter`. -/
def compute_backoff (base cap : ℚ) (attempt : ℕ) (jitter : ℚ) : ℚ :=
  if base ≤ 0 then 0
  else
    (if 0 < cap then min (base * 2 ^ attempt) cap else base * 2 ^ attempt)
      * jitter

/-! ## Error classification (`_is_retryable_error`, nano_banana.py 453-479)

A raised Python exception is modelled by what `_is_retryable_error` inspects:
whether it is a `TimeoutError`, its `code` / `status_code` attributes (already
coerced through `int(...)`: a non-coercible attribute is modelled as `none`,
matching the `code_val = None` fallback), and its lowered `str(...)` message. -/

structure PyError where
  isTimeout : Bool
  code : Option ℤ
  status_code : Option ℤ
  message : String
deriving Repr, DecidableEq

/-- The token list the source scans the lowered message for. -/
def retry_tokens : List String :=
  ["429", "503", "502", "504", "resource_exhausted", "rate limit", "quota",
   "unavailable", "overloaded", "timeout", "deadline"]

/-- Model of `_is_retryable_error(exc)`.  The attribute lookup
`getattr(exc, "code", None) or getattr(exc, "status_code", None)` falls
through to `status_code` when `code` is absent or falsy (the integer `0`). -/
def is_retryable_error (e : PyError) : Bool :=
  if e.isTimeout then true
  else
    let codeAttr := match e.code with
      | some c => if c = 0 then e.status_code else some c
      | none => e.status_code
    match codeAttr with
    | some c =>
      if c = 429 ∨ c = 500 ∨ c = 502 ∨ c = 503 ∨ c = 504 then true
      else retry_tokens.any (fun t => e.message.containsSubstr t)
    | none => retry_tokens.any (fun t => e.message.containsSubstr t)

/-- The lowered `str(...)` of the `TimeoutError("Gemini request timed out.")`
raised by `_call_with_timeout`. -/
def timeoutError : PyError :=
  { isTimeout := true, code := none, status_code := none
    message := "gemini request timed out." }

/-! ## Hard timeout (`_call_with_timeout`, nano_banana.py lines 433-442)

The Python function submits `call_fn` to a `ThreadPoolExecutor(max_workers=1)`
opened with a `with` statement and waits `future.result(timeout=timeout_seconds)`.
Two facts of the standard library shape the model:

* `future.result(timeout)` raises `concurrent.futures.TimeoutError` once
  `timeout` seconds have elapsed without a result, which the source converts
  into `TimeoutError("Gemini request timed out.")`;
* `ThreadPoolExecutor.__exit__` calls `shutdown(wait=True)`, which joins the
  worker thread.  Leaving the `with` block — including by propagating the
  `TimeoutError` — therefore blocks until `call_fn` itself has finished.

The operation is modelled by its wall-clock duration: `some d` means
`call_fn` returns after `d` seconds, `none` means it never returns.  The
result records what the caller observes and *when* control returns to the
caller; an overall `none` means control never returns. -/

inductive TimeoutRun where
  /-- The value of `call_fn` is returned to the caller at time `t`. -/
  | returned (t : ℚ)
  /-- The `TimeoutError("Gemini request timed out.")` reaches the caller at
  time `t`. -/
  | raisedTimeout (t : ℚ)
deriving Repr, DecidableEq

/-- Model of `_call_with_timeout(call_fn, timeout_seconds)` for an operation of the
given duration: `none` when the call never returns control to the caller. -/
def call_with_timeout (timeout_seconds : ℚ) (duration : Option ℚ) :
    Option TimeoutRun :=
  if timeout_seconds ≤ 0 then
    -- `return call_fn()`: run inline, forwarding the operation's timing.
    duration.map .returned
  else
    match duration with
    | none => none
    | some d =>
      if d ≤ timeout_seconds then some (.returned d)
      else
        -- `future.result` raises at `timeout_seconds`; the `TimeoutError` is
        -- raised inside the `with` block, and `executor.__exit__` then joins
        -- the still-running worker thread, so the exception only reaches the
        -- caller at time `d`, when `call_fn` finally finishes.
        some (.raisedTimeout d)

/-- The time at which `call_with_timeout` hands control back, if ever. -/
def TimeoutRun.returnTime : TimeoutRun → ℚ
  | .returned t => t
  | .raisedTimeout t => t

/-! ## Retry loop (`NanoBananaEditor._generate_with_retries`, lines 301-328)

One call attempt is modelled by what the `except` handler observes:
`op k = none` means invocation `k` (zero-based) returns a response, and
`op k = some e` means it raises the exception `e` (a timed-out attempt raises
`timeoutError`).  The loop body increments `retries` by at most one per
iteration and returns as soon as `retries` exceeds `self._max_retries`, so a
fuel of `max_retries - retries + 1` iterations always suffices; the fuel-zero
branch is unreachable under that bound (`retryLoop_fuel_irrel` below). -/

inductive GenOutcome where
  /-- The provider response is returned. -/
  | ok
  /-- A `NanoBananaRetryableError` raised before any attempt: breaker open. -/
  | unavailable (msg : String)
  /-- A `NanoBananaError` raised on a non-retryable failure. -/
  | fatalError (msg : String)
  /-- A `NanoBananaRetryableError` raised when the retry budget is spent. -/
  | retriesExhausted (msg : String)
deriving Repr, DecidableEq

structure GenTrace where
  outcome : GenOutcome
  /-- How many times the wrapped operation was invoked. -/
  attempts : ℕ
  /-- The `time.sleep` backoff delays, in the order they are slept. -/
  delays : List ℚ
  breaker : Breaker
deriving Repr, DecidableEq

/-- The `while True:` body of `_generate_with_retries`, entered with the
current `retries` counter.  `jitter k` is the `random.uniform(0.75, 1.25)`
draw used for the backoff slept after failed invocation `k`. -/
def retryLoop (op : ℕ → Option PyError) (max_retries : ℕ) (base cap : ℚ)
    (jitter : ℕ → ℚ) (now : ℚ) : ℕ → ℕ → Breaker → GenTrace
  | _, 0, b => ⟨.retriesExhausted "AI generation failed; please retry.", 0, [], b⟩
  | retries, fuel + 1, b =>
    match op retries with
    | none => ⟨.ok, 1, [], b.record_success⟩
    | some e =>
      if is_retryable_error e = false then
        ⟨.fatalError "AI request failed.", 1, [], b.record_failure now⟩
      else if max_retries ≤ retries then
        ⟨.retriesExhausted "AI generation failed; please retry.", 1, [],
         b.record_failure now⟩
      else
        -- sleep `_compute_backoff(base, cap, retries)`, bump `retries`, loop.
        ⟨(retryLoop op max_retries base cap jitter now (retries + 1) fuel
            (b.record_failure now)).outcome,
         (retryLoop op max_retries base cap jitter now (retries + 1) fuel
            (b.record_failure now)).attempts + 1,
         compute_backoff base cap retries (jitter retries)
           :: (retryLoop op max_retries base cap jitter now (retries + 1) fuel
              (b.record_failure now)).delays,
         (retryLoop op max_retries base cap jitter now (retries + 1) fuel
            (b.record_failure now)).breaker⟩

/-- Model of `_generate_with_retries(call_fn)`: consult the breaker, then run the retry
loop starting from `retries = 0`. -/
def generate_with_retries (op : ℕ → Option PyError) (max_retries : ℕ)
    (base cap : ℚ) (jitter : ℕ → ℚ) (now : ℚ) (b : Breaker) : GenTrace :=
  if (b.allow now).1 = false then
    ⟨.unavailable "AI temporarily unavailable; please retry.", 0, [],
     (b.allow now).2⟩
  else
    retryLoop op max_retries base cap jitter now 0 (max_retries + 1)
      (b.allow now).2

/-! ## Status projector (`src/routes/api.py`)

Task results are JSON-serialisable values; the dicts produced by the two
Celery tasks (`tasks.py`) carry the keys modelled by `ResultDict` (an absent
key is `none`).  `truthy` is Python truthiness on such a value: `None` and
`""` are falsy. -/

def truthy : Option String → Bool
  | none => false
  | some s => !(s = "")

structure ResultDict where
  job_type : Option String
  error : Option String
  result_id : Option String
  original_url : Option String
  prompt_used : Option String
  status_message : Option String
  warning_message : Option String
  image_id : Option String
deriving Repr, DecidableEq

/-- The empty dict `{}` that `result.result or {}` substitutes for `None`. -/
def ResultDict.empty : ResultDict :=
  ⟨none, none, none, none, none, none, none, none⟩

/-- A stored Celery task result: absent (`None`), a dict, or some other
JSON value (abstracted by its serialisation). -/
inductive CeleryValue where
  | vnone
  | vdict (d : ResultDict)
  | vother (s : String)
deriving Repr, DecidableEq

/-- Model of `(state or "").upper()` on the ASCII state names Celery uses
(a structural uppercase map over the string's characters). -/
def pyUpper (s : String) : String :=
  String.mk (s.data.map Char.toUpper)

/-- Model of `_map_task_status(state)` (api.py lines 49-59). -/
def map_task_status (state : String) : String :=
  if pyUpper state = "PENDING" ∨ pyUpper state = "RECEIVED" then "pending"
  else if pyUpper state = "STARTED" ∨ pyUpper state = "RETRY" then "processing"
  else if pyUpper state = "SUCCESS" then "complete"
  else if pyUpper state = "FAILURE" then "failed"
  else "pending"

structure VariationResult where
  result_url : Option String
  result_id : Option String
  original_url : Option String
  prompt_used : Option String
  status_message : Option String
  warning_message : Option String
deriving Repr, DecidableEq

structure BackgroundResult where
  result_url : Option String
  image_id : Option String
  original_url : Option String
deriving Repr, DecidableEq

/-- Model of `_format_variation_result(request, payload)` (api.py lines 62-77).
`urlFor` is `request.url_for("api_image_asset", ...)`; `absUrl` is
`_absolute_url(request, ...)`. -/
def format_variation_result (urlFor absUrl : String → String)
    (d : ResultDict) : VariationResult :=
  { result_url := if truthy d.result_id then some (urlFor (d.result_id.getD "")) else none
    result_id := d.result_id
    original_url :=
      if truthy d.original_url then some (absUrl (d.original_url.getD ""))
      else d.original_url
    prompt_used := d.prompt_used
    status_message := d.status_message
    warning_message := d.warning_message }

/-- Model of `_format_background_result(request, payload)` (api.py lines 80-92). -/
def format_background_result (urlFor absUrl : String → String)
    (d : ResultDict) : BackgroundResult :=
  { result_url := if truthy d.image_id then some (urlFor (d.image_id.getD "")) else none
    image_id := d.image_id
    original_url :=
      if truthy d.original_url then some (absUrl (d.original_url.getD ""))
      else d.original_url }

/-- The value under the `result` key of a job payload. -/
inductive ResultShape where
  | variation (v : VariationResult)
  | background (v : BackgroundResult)
  /-- Unknown `job_type`: the raw dict is passed through. -/
  | rawDict (d : ResultDict)
  /-- Non-dict task result passed through. -/
  | rawValue (s : String)
deriving Repr, DecidableEq

/-- The JSON object built by `_build_job_payload`: `none` fields model absent
keys (`job_type` is `some none` when the key is present with value `null`). -/
structure JobPayload where
  job_id : String
  status : String
  job_type : Option (Option String)
  result : Option ResultShape
  error : Option String
deriving Repr, DecidableEq

/-- Model of `_build_job_payload(request, job_id)` (api.py lines 126-156) after the
`AsyncResult` lookup, as a function of the task's Celery `state`, the
stringified `result.info` (the exception text for FAILURE states) and the
stored result `value`. -/
def build_job_payload (urlFor absUrl : String → String) (job_id : String)
    (state : String) (info : String) (value : CeleryValue) : JobPayload :=
  if map_task_status state = "failed" then
    ⟨job_id, "failed", none, none, some info⟩
  else if map_task_status state ≠ "complete" then
    ⟨job_id, map_task_status state, none, none, none⟩
  else
    match value with
    | .vother s => ⟨job_id, "complete", none, some (.rawValue s), none⟩
    | v =>
      -- `result_payload = result.result or {}`, then the dict branch.
      let d := match v with | .vdict d => d | _ => ResultDict.empty
      if truthy d.error then
        ⟨job_id, "failed", none, none, d.error⟩
      else if d.job_type = some "variation" then
        ⟨job_id, "complete", some d.job_type,
          some (.variation (format_variation_result urlFor absUrl d)), none⟩
      else if d.job_type = some "background_removal" then
        ⟨job_id, "complete", some d.job_type,
          some (.background (format_background_result urlFor absUrl d)), none⟩
      else
        ⟨job_id, "complete", some d.job_type, some (.rawDict d), none⟩

/-- The result backend consulted by `AsyncResult(job_id, app=celery_app)`. -/
structure TaskRecord where
  state : String
  /-- Value of `str(result.info)`; for FAILURE states the stringified exception. -/
  info : String
  value : CeleryValue
deriving Repr, DecidableEq

/-- Celery `AsyncResult` semantics: a task id absent from the result backend
reports state `"PENDING"` with `result`/`info` equal to `None` — Celery does
not distinguish an unknown id from a task that has not started yet. -/
def asyncResult (store : String → Option TaskRecord) (job_id : String) :
    TaskRecord :=
  (store job_id).getD ⟨"PENDING", "None", .vnone⟩

/-- The `GET /api/jobs/(job_id)` handler body (`job_status` →
`_build_job_payload`). -/
def get_job_status (urlFor absUrl : String → String)
    (store : String → Option TaskRecord) (job_id : String) : JobPayload :=
  let r := asyncResult store job_id
  build_job_payload urlFor absUrl job_id r.state r.info r.value

/-! ## Status stream (`job_stream`, api.py lines 159-188)

The event generator loops: check disconnection, poll `_build_job_payload`,
emit the payload only when its serialisation differs from the last emitted
one, then stop if the status is terminal, else sleep `poll_interval`.
The successive poll results are modelled as a list (a finite trace; the list
ending models client disconnection), and `json.dumps` equality as payload
equality — the payload is built deterministically, so equal payloads
serialise equally and differing payloads differ. -/

def payloadTerminal (p : JobPayload) : Bool :=
  p.status = "complete" ∨ p.status = "failed"

/-- The emitted events of the `event_generator` loop, given the successive
polled payloads and the last emitted payload (`last_payload`, initially
`none`). -/
def streamEvents : List JobPayload → Option JobPayload → List JobPayload
  | [], _ => []
  | p :: rest, last =>
    if some p ≠ last then
      if payloadTerminal p then [p]
      else p :: streamEvents rest (some p)
    else
      if payloadTerminal p then []
      else streamEvents rest last

/-! ## Concrete fixtures used to exercise the definitions -/

/-- A 503-class provider error (`status_code` attribute absent, `code = 503`),
as raised by an unavailable upstream. -/
def err503 : PyError :=
  { isTimeout := false, code := some 503, status_code := none
    message := "503 service unavailable" }

/-- A non-retryable provider error (`400`-class, no retry token in the
message). -/
def err400 : PyError :=
  { isTimeout := false, code := some 400, status_code := none
    message := "invalid argument" }

/-- An operation that fails with a 503 on its first two invocations and then
succeeds. -/
def opFailTwice : ℕ → Option PyError :=
  fun k => if k < 2 then some err503 else none

/-- An operation that always fails with a 503. -/
def opAlways503 : ℕ → Option PyError :=
  fun _ => some err503

/-- An operation that fails fatally on every invocation. -/
def opFatal : ℕ → Option PyError :=
  fun _ => some err400

/-- A closed breaker with the default production settings
(`threshold=5`, `cooldown=60`). -/
def breakerClosed : Breaker := Breaker.init 5 60

/-- A task-result store with no records at all. -/
def emptyStore : String → Option TaskRecord := fun _ => none

/-- A store holding a single task `"job1"` that has not started yet. -/
def pendingStore : String → Option TaskRecord :=
  fun job_id => if job_id = "job1" then some ⟨"PENDING", "None", .vnone⟩ else none

/-- A successful variation result dict as returned by
`generate_variation_task`. -/
def variationDict : ResultDict :=
  { job_type := some "variation", error := none, result_id := some "res9"
    original_url := some "/api/images/src1", prompt_used := some "make it blue"
    status_message := some "done", warning_message := none, image_id := none }

/-- The payload of a job that is still pending. -/
def pendingPayload : JobPayload :=
  build_job_payload id id "job1" "PENDING" "None" .vnone

/-- The payload of a job that is running. -/
def processingPayload : JobPayload :=
  build_job_payload id id "job1" "STARTED" "None" .vnone

/-- The payload of a job that has succeeded with a variation result. -/
def completePayload : JobPayload :=
  build_job_payload id id "job1" "SUCCESS" "None" (.vdict variationDict)

/-- A poll trace observing Pending, then Running, then Succeeded. -/
def pollTrace : List JobPayload :=
  [pendingPayload, pendingPayload, processingPayload, completePayload]

/-! ## Helper lemmas on the breaker -/

theorem Breaker.record_failure_threshold (b : Breaker) (t : ℚ) :
    (b.record_failure t).threshold = b.threshold := by
  unfold Breaker.record_failure; split_ifs <;> rfl

theorem Breaker.record_failure_cooldown (b : Breaker) (t : ℚ) :
    (b.record_failure t).cooldown = b.cooldown := by
  unfold Breaker.record_failure; split_ifs <;> rfl

/-- Applying `record_success` after any `record_failure` lands in the same state as
`record_success` directly: only `failures`/`opened_at` differ, and both are
zeroed. -/
theorem Breaker.record_success_record_failure (b : Breaker) (t : ℚ) :
    (b.record_failure t).record_success = b.record_success := by
  unfold Breaker.record_failure Breaker.record_success; split_ifs <;> rfl

/-- From a closed, zero-count breaker, fewer than `threshold` recorded
failures accumulate in the counter without opening. -/
theorem Breaker.record_failures_below (b : Breaker) (t : ℚ)
    (h0 : b.failures = 0) (hop : b.opened_at = 0) :
    ∀ k, k < b.threshold →
      b.record_failures t k = { b with failures := k, opened_at := 0 } := by
  intro k
  induction k with
  | zero =>
    intro _
    cases b
    simp_all [Breaker.record_failures]
  | succ n ih =>
    intro hk
    rw [Breaker.record_failures, ih (by omega)]
    unfold Breaker.record_failure
    rw [if_neg (by simp; omega), if_neg (by rintro ⟨h, -⟩; simp at h; omega)]

/-- The `threshold`-th recorded failure from a closed, zero-count breaker
opens it at the failure's timestamp. -/
theorem Breaker.record_failures_opens (b : Breaker) (t : ℚ)
    (h0 : b.failures = 0) (hop : b.opened_at = 0)
    (hth : b.threshold ≠ 0) (hcd : b.cooldown ≠ 0) :
    b.record_failures t b.threshold =
      { b with failures := b.threshold, opened_at := t } := by
  obtain ⟨m, hm⟩ : ∃ m, b.threshold = m + 1 := ⟨b.threshold - 1, by omega⟩
  rw [hm, Breaker.record_failures,
    Breaker.record_failures_below b t h0 hop m (by omega)]
  unfold Breaker.record_failure
  rw [if_neg (by simp; omega), if_pos ⟨by simp [hm], by simpa using hcd⟩]
  simp [hm]

/-- C3: with a positive threshold and cooldown, `record_failure` increments
the counter and opens the breaker (stamping `opened_at = now`) once the
counter reaches the threshold; an open breaker's `allow` is `false` strictly
within the cooldown window and `true` from the moment it elapses; and
`record_success` unconditionally zeroes the counter and closes the breaker,
after which `allow` is `true`. -/
theorem breaker_threshold_cooldown_contract (b : Breaker) (now : ℚ)
    (hth : 0 < b.threshold) (hcd : 0 < b.cooldown) :
    ((b.record_failure now).failures = b.failures + 1)
    ∧ (b.threshold ≤ b.failures + 1 → (b.record_failure now).opened_at = now)
    ∧ (b.opened_at ≠ 0 → now - b.opened_at < b.cooldown → (b.allow now).1 = false)
    ∧ (b.opened_at ≠ 0 → b.cooldown ≤ now - b.opened_at → (b.allow now).1 = true)
    ∧ (b.record_success.failures = 0 ∧ b.record_success.opened_at = 0
       ∧ (b.record_success.allow now).1 = true) := by
  have hth0 : ¬ b.threshold = 0 := by omega
  have hcd0 : b.cooldown ≠ 0 := ne_of_gt hcd
  refine ⟨?_, ?_, ?_, ?_, rfl, rfl, ?_⟩
  · unfold Breaker.record_failure
    rw [if_neg hth0]
    split_ifs <;> rfl
  · intro hreach
    unfold Breaker.record_failure
    rw [if_neg hth0, if_pos ⟨hreach, hcd0⟩]
  · intro hopen hlt
    unfold Breaker.allow
    rw [if_neg (by rintro (h | h); exacts [hth0 h, hcd0 h]), if_neg hopen,
      if_neg (by linarith)]
  · intro hopen hge
    unfold Breaker.allow
    rw [if_neg (by rintro (h | h); exacts [hth0 h, hcd0 h]), if_neg hopen,
      if_pos hge]
  · unfold Breaker.allow Breaker.record_success
    split_ifs <;> simp_all

/-- Witness for C3 at `threshold = 5`, `cooldown = 60`, four prior failures,
`now = 7`. -/
theorem breaker_threshold_cooldown_contract_witness :
    (((⟨5, 60, 4, 0⟩ : Breaker).record_failure 7).failures = 4 + 1)
    ∧ ((5 : ℕ) ≤ 4 + 1 → ((⟨5, 60, 4, 0⟩ : Breaker).record_failure 7).opened_at = 7)
    ∧ ((0 : ℚ) ≠ 0 → (7 : ℚ) - 0 < 60 → ((⟨5, 60, 4, 0⟩ : Breaker).allow 7).1 = false)
    ∧ ((0 : ℚ) ≠ 0 → (60 : ℚ) ≤ 7 - 0 → ((⟨5, 60, 4, 0⟩ : Breaker).allow 7).1 = true)
    ∧ ((⟨5, 60, 4, 0⟩ : Breaker).record_success.failures = 0
       ∧ (⟨5, 60, 4, 0⟩ : Breaker).record_success.opened_at = 0
       ∧ ((⟨5, 60, 4, 0⟩ : Breaker).record_success.allow 7).1 = true) :=
  breaker_threshold_cooldown_contract ⟨5, 60, 4, 0⟩ 7 (by norm_num) (by norm_num)

/-- C10: once the cooldown has elapsed, the first `allow()` resets both the
failure counter and `opened_at` to zero; a single failed half-open probe then
leaves the breaker closed (counter 1, still allowing), and re-opening takes a
full `threshold` of fresh consecutive failures. -/
theorem breaker_halfopen_probe_reset (b : Breaker) (now t t2 : ℚ)
    (hth : 1 < b.threshold) (hcd : 0 < b.cooldown)
    (hopen : b.opened_at ≠ 0) (helapsed : b.cooldown ≤ now - b.opened_at)
    (ht : t ≠ 0) :
    b.allow now = (true, { b with failures := 0, opened_at := 0 })
    ∧ ((b.allow now).2.record_failure t).failures = 1
    ∧ ((b.allow now).2.record_failure t).opened_at = 0
    ∧ (((b.allow now).2.record_failure t).allow t2).1 = true
    ∧ (∀ k < b.threshold, ((b.allow now).2.record_failures t k).opened_at = 0)
    ∧ ((b.allow now).2.record_failures t b.threshold).opened_at = t := by
  have hth0 : ¬ b.threshold = 0 := by omega
  have hcd0 : b.cooldown ≠ 0 := ne_of_gt hcd
  have hallow : b.allow now = (true, { b with failures := 0, opened_at := 0 }) := by
    unfold Breaker.allow
    rw [if_neg (by rintro (h | h); exacts [hth0 h, hcd0 h]), if_neg hopen,
      if_pos helapsed]
  rw [hallow]
  have hprobe : ({ b with failures := 0, opened_at := 0 } : Breaker).record_failure t
      = { b with failures := 1, opened_at := 0 } := by
    unfold Breaker.record_failure
    rw [if_neg (by simpa using hth0), if_neg (by rintro ⟨h, -⟩; simp at h; omega)]
  refine ⟨rfl, ?_, ?_, ?_, ?_, ?_⟩
  · rw [hprobe]
  · rw [hprobe]
  · rw [hprobe]
    unfold Breaker.allow
    split_ifs <;> simp_all
  · intro k hk
    rw [Breaker.record_failures_below _ t rfl rfl k (by simpa using hk)]
  · rw [Breaker.record_failures_opens _ t rfl rfl (by simpa using hth0)
      (by simpa using hcd0)]

/-- Witness for C10: breaker `⟨5, 60, 5, 10⟩` opened at 10, probed at
`now = 100` (cooldown elapsed), fresh failures at `t = 200`. -/
theorem breaker_halfopen_probe_reset_witness :
    (⟨5, 60, 5, 10⟩ : Breaker).allow 100 = (true, ⟨5, 60, 0, 0⟩)
    ∧ (((⟨5, 60, 5, 10⟩ : Breaker).allow 100).2.record_failure 200).failures = 1
    ∧ (((⟨5, 60, 5, 10⟩ : Breaker).allow 100).2.record_failure 200).opened_at = 0
    ∧ ((((⟨5, 60, 5, 10⟩ : Breaker).allow 100).2.record_failure 200).allow 201).1 = true
    ∧ (∀ k < (⟨5, 60, 5, 10⟩ : Breaker).threshold,
        (((⟨5, 60, 5, 10⟩ : Breaker).allow 100).2.record_failures 200 k).opened_at = 0)
    ∧ (((⟨5, 60, 5, 10⟩ : Breaker).allow 100).2.record_failures 200
        (⟨5, 60, 5, 10⟩ : Breaker).threshold).opened_at = 200 :=
  breaker_halfopen_probe_reset ⟨5, 60, 5, 10⟩ 100 200 201 (by norm_num)
    (by norm_num) (by norm_num) (by norm_num) (by norm_num)

/-- C8: with positive `base` and `cap` and a jitter draw in `[0.75, 1.25]`,
the backoff before retry `k + 1` is exactly `min(base * 2^k, cap)` scaled by
the draw, hence lies between `0.75` and `1.25` times `min(base * 2^k, cap)`. -/
theorem backoff_delay_within_jitter_bounds (base cap : ℚ) (k : ℕ) (jitter : ℚ)
    (hbase : 0 < base) (hcap : 0 < cap)
    (hjl : 3 / 4 ≤ jitter) (hju : jitter ≤ 5 / 4) :
    compute_backoff base cap k jitter = min (base * 2 ^ k) cap * jitter
    ∧ 3 / 4 * min (base * 2 ^ k) cap ≤ compute_backoff base cap k jitter
    ∧ compute_backoff base cap k jitter ≤ 5 / 4 * min (base * 2 ^ k) cap := by
  have heq : compute_backoff base cap k jitter = min (base * 2 ^ k) cap * jitter := by
    unfold compute_backoff
    rw [if_neg (not_le.mpr hbase), if_pos hcap]
  have hmin : 0 ≤ min (base * 2 ^ k) cap := le_min (by positivity) hcap.le
  refine ⟨heq, ?_, ?_⟩ <;> rw [heq] <;> nlinarith [hmin]

/-- Witness for C8 at `base = 1`, `cap = 8`, `k = 2`, `jitter = 1`. -/
theorem backoff_delay_within_jitter_bounds_witness :
    compute_backoff 1 8 2 1 = min ((1 : ℚ) * 2 ^ 2) 8 * 1
    ∧ 3 / 4 * min ((1 : ℚ) * 2 ^ 2) 8 ≤ compute_backoff 1 8 2 1
    ∧ compute_backoff 1 8 2 1 ≤ 5 / 4 * min ((1 : ℚ) * 2 ^ 2) 8 :=
  backoff_delay_within_jitter_bounds 1 8 2 1 (by norm_num) (by norm_num)
    (by norm_num) (by norm_num)

/-! ## Helper lemmas on the retry loop -/

theorem Breaker.record_failure_failures (b : Breaker) (t : ℚ)
    (hth : b.threshold ≠ 0) :
    (b.record_failure t).failures = b.failures + 1 := by
  unfold Breaker.record_failure
  rw [if_neg hth]
  split_ifs <;> rfl

theorem Breaker.record_failures_threshold (b : Breaker) (t : ℚ) (k : ℕ) :
    (b.record_failures t k).threshold = b.threshold := by
  induction k with
  | zero => rfl
  | succ n ih => rw [Breaker.record_failures, Breaker.record_failure_threshold, ih]

/-- With a nonzero threshold, `k` recorded failures add `k` to the counter. -/
theorem Breaker.record_failures_count (b : Breaker) (t : ℚ)
    (hth : b.threshold ≠ 0) :
    ∀ k, (b.record_failures t k).failures = b.failures + k := by
  intro k
  induction k with
  | zero => rfl
  | succ n ih =>
    rw [Breaker.record_failures, Breaker.record_failure_failures _ _
      (by rw [Breaker.record_failures_threshold]; exact hth), ih]
    omega

/-- Recording one failure and then `k` more is recording `k + 1` failures. -/
theorem Breaker.record_failures_shift (b : Breaker) (t : ℚ) :
    ∀ k, (b.record_failure t).record_failures t k = b.record_failures t (k + 1) := by
  intro k
  induction k with
  | zero => rfl
  | succ n ih => rw [Breaker.record_failures, ih, ← Breaker.record_failures]

/-- When `allow` denies, it has not mutated the breaker. -/
theorem Breaker.allow_false_eq (b : Breaker) (now : ℚ)
    (h : (b.allow now).1 = false) : b.allow now = (false, b) := by
  unfold Breaker.allow at h ⊢
  split_ifs at h ⊢ <;> simp_all

/-- The retry loop on an operation that fails retryably on every attempt
strictly before `max_retries` and succeeds at attempt `max_retries`: one
invocation per attempt, one backoff delay per retry, and the final
`record_success` closes the breaker. -/
theorem retryLoop_retryable_then_success (op : ℕ → Option PyError) (mr : ℕ)
    (base cap : ℚ) (jitter : ℕ → ℚ) (now : ℚ) :
    ∀ fuel retries b, retries + fuel = mr + 1 → retries ≤ mr →
      (∀ i, retries ≤ i → i < mr → (op i).map is_retryable_error = some true) →
      op mr = none →
      retryLoop op mr base cap jitter now retries fuel b =
        ⟨.ok, mr - retries + 1,
         (List.range' retries (mr - retries)).map
           (fun k => compute_backoff base cap k (jitter k)),
         b.record_success⟩ := by
  intro fuel
  induction fuel with
  | zero => intro retries b hsum hle _ _; omega
  | succ n ih =>
    intro retries b hsum hle hfail hsucc
    rcases eq_or_lt_of_le hle with heq | hlt
    · subst heq
      simp [retryLoop, hsucc]
    · obtain ⟨e, he, hr⟩ := Option.map_eq_some'.mp (hfail retries le_rfl hlt)
      have hrec := ih (retries + 1) (b.record_failure now) (by omega) (by omega)
        (fun i h1 h2 => hfail i (by omega) h2) hsucc
      obtain ⟨m, hm⟩ : ∃ m, mr - retries = m + 1 := ⟨mr - retries - 1, by omega⟩
      simp only [retryLoop, he, hr, Bool.true_eq_false, if_false,
        if_neg (by omega : ¬ mr ≤ retries), hrec,
        Breaker.record_success_record_failure, GenTrace.mk.injEq]
      refine ⟨by trivial, by omega, ?_, by trivial⟩
      rw [hm, List.range'_succ]
      have : mr - (retries + 1) = m := by omega
      rw [this]
      rfl

/-- The retry loop on an operation that fails retryably on every attempt:
`max_retries - retries + 1` invocations, one delay per retry, a recorded
failure per attempt, ending in retry exhaustion. -/
theorem retryLoop_all_retryable (op : ℕ → Option PyError) (mr : ℕ)
    (base cap : ℚ) (jitter : ℕ → ℚ) (now : ℚ) :
    ∀ fuel retries b, retries + fuel = mr + 1 → retries ≤ mr →
      (∀ i, (op i).map is_retryable_error = some true) →
      retryLoop op mr base cap jitter now retries fuel b =
        ⟨.retriesExhausted "AI generation failed; please retry.",
         mr - retries + 1,
         (List.range' retries (mr - retries)).map
           (fun k => compute_backoff base cap k (jitter k)),
         b.record_failures now (mr - retries + 1)⟩ := by
  intro fuel
  induction fuel with
  | zero => intro retries b hsum hle _; omega
  | succ n ih =>
    intro retries b hsum hle hfail
    obtain ⟨e, he, hr⟩ := Option.map_eq_some'.mp (hfail retries)
    rcases eq_or_lt_of_le hle with heq | hlt
    · subst heq
      simp [retryLoop, he, hr, Breaker.record_failures]
    · have hrec := ih (retries + 1) (b.record_failure now) (by omega) (by omega)
        hfail
      obtain ⟨m, hm⟩ : ∃ m, mr - retries = m + 1 := ⟨mr - retries - 1, by omega⟩
      simp only [retryLoop, he, hr, Bool.true_eq_false, if_false,
        if_neg (by omega : ¬ mr ≤ retries), hrec,
        Breaker.record_failures_shift, GenTrace.mk.injEq]
      refine ⟨by trivial, by omega, ?_, ?_⟩
      · rw [hm, List.range'_succ]
        have : mr - (retries + 1) = m := by omega
        rw [this]
        rfl
      · have : mr - (retries + 1) + 1 + 1 = mr - retries + 1 := by omega
        rw [this]

/-- C2: with the breaker allowing the call — (1) an operation that fails
retryably on attempts `0..max_retries-1` and succeeds on attempt
`max_retries` yields the success after `max_retries + 1` invocations with
exactly one backoff delay (`_compute_backoff(base, cap, k)`) before retry
`k + 1`; (2) an operation that always fails retryably ends in retry
exhaustion after `max_retries` retries (`max_retries + 1` invocations, one
delay per retry); (3) an operation whose first attempt fails non-retryably
aborts fatally after that single attempt with no delay, regardless of the
remaining retry budget. -/
theorem resilient_call_retry_contract (op : ℕ → Option PyError) (mr : ℕ)
    (base cap : ℚ) (jitter : ℕ → ℚ) (now : ℚ) (b : Breaker)
    (hallow : (b.allow now).1 = true) :
    ((∀ i, i < mr → (op i).map is_retryable_error = some true) → op mr = none →
      generate_with_retries op mr base cap jitter now b =
        ⟨.ok, mr + 1,
         (List.range mr).map (fun k => compute_backoff base cap k (jitter k)),
         (b.allow now).2.record_success⟩)
    ∧ ((∀ i, (op i).map is_retryable_error = some true) →
      generate_with_retries op mr base cap jitter now b =
        ⟨.retriesExhausted "AI generation failed; please retry.", mr + 1,
         (List.range mr).map (fun k => compute_backoff base cap k (jitter k)),
         (b.allow now).2.record_failures now (mr + 1)⟩)
    ∧ (∀ e, op 0 = some e → is_retryable_error e = false →
      generate_with_retries op mr base cap jitter now b =
        ⟨.fatalError "AI request failed.", 1, [],
         (b.allow now).2.record_failure now⟩) := by
  have hnot : ¬ (b.allow now).1 = false := by simp [hallow]
  refine ⟨?_, ?_, ?_⟩
  · intro hfail hsucc
    unfold generate_with_retries
    rw [if_neg hnot, retryLoop_retryable_then_success op mr base cap jitter now
      (mr + 1) 0 _ (by omega) (by omega) (fun i _ h2 => hfail i h2) hsucc]
    simp [List.range_eq_range']
  · intro hfail
    unfold generate_with_retries
    rw [if_neg hnot, retryLoop_all_retryable op mr base cap jitter now
      (mr + 1) 0 _ (by omega) (by omega) hfail]
    simp [List.range_eq_range']
  · intro e he hfatal
    unfold generate_with_retries
    rw [if_neg hnot]
    simp [retryLoop, he, hfatal]

/-- Witness for C2, part (1): two 503 failures then success, with
`max_retries = 2`, `base = 1`, `cap = 8`, unit jitter, a closed breaker. -/
theorem resilient_call_retry_contract_witness :
    generate_with_retries opFailTwice 2 1 8 (fun _ => 1) 50 breakerClosed =
      ⟨.ok, 2 + 1,
       (List.range 2).map (fun k => compute_backoff 1 8 k ((fun _ => (1 : ℚ)) k)),
       (breakerClosed.allow 50).2.record_success⟩ :=
  (resilient_call_retry_contract opFailTwice 2 1 8 (fun _ => 1) 50 breakerClosed
    (by norm_num [breakerClosed, Breaker.init, Breaker.allow])).1
    (by decide) (by decide)

/-- C4 part (a): whenever `allow()` denies, the resilient call fails with the
"temporarily unavailable" error, performs zero invocations of the operation
and sleeps no delay; part (b): from a fresh breaker with `threshold = 5`,
five recorded failures at time `t` make every call started before the
cooldown has elapsed fail that way. -/
theorem breaker_open_blocks_calls (op : ℕ → Option PyError) (mr : ℕ)
    (base cap : ℚ) (jitter : ℕ → ℚ) (cd t : ℚ)
    (hcd : 0 < cd) (ht : t ≠ 0) :
    (∀ (b : Breaker) (now : ℚ), (b.allow now).1 = false →
      generate_with_retries op mr base cap jitter now b =
        ⟨.unavailable "AI temporarily unavailable; please retry.", 0, [], b⟩)
    ∧ (∀ now : ℚ, now - t < cd →
      generate_with_retries op mr base cap jitter now
          ((Breaker.init 5 cd).record_failures t 5) =
        ⟨.unavailable "AI temporarily unavailable; please retry.", 0, [],
         (Breaker.init 5 cd).record_failures t 5⟩) := by
  have hblock : ∀ (b : Breaker) (now : ℚ), (b.allow now).1 = false →
      generate_with_retries op mr base cap jitter now b =
        ⟨.unavailable "AI temporarily unavailable; please retry.", 0, [], b⟩ := by
    intro b now h
    unfold generate_with_retries
    rw [if_pos h, Breaker.allow_false_eq b now h]
  refine ⟨hblock, ?_⟩
  intro now hnow
  have hinit : Breaker.init 5 cd = ⟨5, cd, 0, 0⟩ := by
    unfold Breaker.init
    rw [max_eq_right hcd.le]
    rfl
  have hopen : (Breaker.init 5 cd).record_failures t 5 = ⟨5, cd, 5, t⟩ := by
    rw [hinit]
    exact Breaker.record_failures_opens ⟨5, cd, 0, 0⟩ t rfl rfl (by norm_num)
      (ne_of_gt hcd)
  refine hblock _ now ?_
  rw [hopen]
  unfold Breaker.allow
  rw [if_neg (by rintro (h | h); exacts [absurd h (by norm_num), absurd h (ne_of_gt hcd)]),
    if_neg (by simpa using ht), if_neg (by simpa using not_le.mpr hnow)]

/-- Witness for C4: a denied call at an open breaker `⟨1, 1, 0, 5⟩` polled at
`now = 11/2`, and the 5-failure scenario with `cooldown = 60`, failures at
`t = 10`, call at `now = 30`. -/
theorem breaker_open_blocks_calls_witness :
    generate_with_retries opAlways503 2 1 8 (fun _ => 1) (11 / 2) ⟨1, 1, 0, 5⟩ =
      ⟨.unavailable "AI temporarily unavailable; please retry.", 0, [],
       ⟨1, 1, 0, 5⟩⟩
    ∧ generate_with_retries opAlways503 2 1 8 (fun _ => 1) 30
        ((Breaker.init 5 60).record_failures 10 5) =
      ⟨.unavailable "AI temporarily unavailable; please retry.", 0, [],
       (Breaker.init 5 60).record_failures 10 5⟩ :=
  ⟨(breaker_open_blocks_calls opAlways503 2 1 8 (fun _ => 1) 60 10 (by norm_num)
      (by norm_num)).1 ⟨1, 1, 0, 5⟩ (11 / 2) (by norm_num [Breaker.allow]),
   (breaker_open_blocks_calls opAlways503 2 1 8 (fun _ => 1) 60 10 (by norm_num)
      (by norm_num)).2 30 (by norm_num)⟩

/-- C7 counterexample: a job against an always-503 capability with
`max_retries = 2` and a fresh default breaker ends in retry exhaustion, but
the breaker's failure counter grows by 3 (one per failed attempt), not by 1
as the claim states. -/
theorem retry_exhaustion_counter_counterexample :
    (generate_with_retries opAlways503 2 1 8 (fun _ => 1) 50 breakerClosed).outcome
      = .retriesExhausted "AI generation failed; please retry."
    ∧ (generate_with_retries opAlways503 2 1 8 (fun _ => 1) 50
        breakerClosed).breaker.failures = breakerClosed.failures + 3
    ∧ ¬ (generate_with_retries opAlways503 2 1 8 (fun _ => 1) 50
        breakerClosed).breaker.failures = breakerClosed.failures + 1 := by
  have hallow : breakerClosed.allow 50 = (true, breakerClosed) := by
    norm_num [breakerClosed, Breaker.init, Breaker.allow]
  have hgen : generate_with_retries opAlways503 2 1 8 (fun _ => 1) 50 breakerClosed =
      ⟨.retriesExhausted "AI generation failed; please retry.", 2 - 0 + 1,
       (List.range' 0 (2 - 0)).map
         (fun k => compute_backoff 1 8 k ((fun _ => (1 : ℚ)) k)),
       breakerClosed.record_failures 50 (2 - 0 + 1)⟩ := by
    unfold generate_with_retries
    rw [hallow, if_neg (by simp)]
    exact retryLoop_all_retryable opAlways503 2 1 8 (fun _ => 1) 50 3 0
      breakerClosed (by omega) (by omega) (fun _ => rfl)
  have hth : breakerClosed.threshold ≠ 0 := by
    norm_num [breakerClosed, Breaker.init]
  rw [hgen]
  refine ⟨rfl, ?_, ?_⟩
  · exact Breaker.record_failures_count _ _ hth 3
  · rw [Breaker.record_failures_count _ _ hth 3]
    omega

/-- C7 amended: a job whose every attempt fails with a 503-class (retryable)
error ends in retry exhaustion, and the breaker's failure counter has grown
by exactly `max_retries + 1` — one per failed attempt — relative to the
post-`allow` state. -/
theorem retry_exhaustion_breaker_increment (op : ℕ → Option PyError) (mr : ℕ)
    (base cap : ℚ) (jitter : ℕ → ℚ) (now : ℚ) (b : Breaker)
    (hallow : (b.allow now).1 = true) (hth : (b.allow now).2.threshold ≠ 0)
    (hop : ∀ i, (op i).map is_retryable_error = some true) :
    (generate_with_retries op mr base cap jitter now b).outcome =
      .retriesExhausted "AI generation failed; please retry."
    ∧ (generate_with_retries op mr base cap jitter now b).breaker.failures =
      (b.allow now).2.failures + (mr + 1) := by
  unfold generate_with_retries
  rw [if_neg (by simp [hallow]), retryLoop_all_retryable op mr base cap jitter
    now (mr + 1) 0 _ (by omega) (by omega) hop]
  exact ⟨rfl, by simpa using Breaker.record_failures_count _ now hth (mr + 1)⟩

/-- Witness for the amended C7: always-503 operation, `max_retries = 2`,
fresh default breaker. -/
theorem retry_exhaustion_breaker_increment_witness :
    (generate_with_retries opAlways503 2 1 8 (fun _ => 1) 50 breakerClosed).outcome
      = .retriesExhausted "AI generation failed; please retry."
    ∧ (generate_with_retries opAlways503 2 1 8 (fun _ => 1) 50
        breakerClosed).breaker.failures =
      (breakerClosed.allow 50).2.failures + (2 + 1) :=
  retry_exhaustion_breaker_increment opAlways503 2 1 8 (fun _ => 1) 50
    breakerClosed (by norm_num [breakerClosed, Breaker.init, Breaker.allow])
    (by norm_num [breakerClosed, Breaker.init, Breaker.allow]) (fun _ => rfl)

/-- C1 (behaviour of the code at the spec's failing scenario): with
`timeout = 1`, an operation that blocks for `100` seconds does produce the
timeout-classified, retryable `TimeoutError` — but control only returns to
the caller at `t = 100`, far beyond `timeout + epsilon` for any small
epsilon (here `epsilon = 1`); and an operation that never returns blocks
`_call_with_timeout` forever, because `ThreadPoolExecutor.__exit__` joins the
abandoned worker thread. -/
theorem timeout_not_enforced :
    call_with_timeout 1 (some 100) = some (.raisedTimeout 100)
    ∧ (call_with_timeout 1 (some 100)).map TimeoutRun.returnTime = some 100
    ∧ ¬ ((100 : ℚ) ≤ 1 + 1)
    ∧ call_with_timeout 1 none = none
    ∧ is_retryable_error timeoutError = true := by
  refine ⟨?_, ?_, by norm_num, ?_, rfl⟩ <;>
    norm_num [call_with_timeout, TimeoutRun.returnTime]

/-- C5 counterexample: the store holds no task `"job1"` at all, yet
`get_job_status` reports status `"pending"` with no error — the very same
payload an existing, not-yet-started task `"job1"` would get.  No NotFound
signal exists on this path. -/
theorem unknown_job_pending_counterexample :
    emptyStore "job1" = none
    ∧ get_job_status id id emptyStore "job1" =
        ⟨"job1", "pending", none, none, none⟩
    ∧ get_job_status id id emptyStore "job1" =
        get_job_status id id pendingStore "job1" :=
  ⟨rfl, rfl, rfl⟩

/-- C5 amended: querying job status with a job id unknown to the result
backend returns a plain `"pending"` payload (Celery reports unknown ids as
PENDING); NotFound is never signalled. -/
theorem unknown_job_reports_pending (urlFor absUrl : String → String)
    (store : String → Option TaskRecord) (job_id : String)
    (h : store job_id = none) :
    get_job_status urlFor absUrl store job_id =
      ⟨job_id, "pending", none, none, none⟩ := by
  unfold get_job_status asyncResult
  rw [h]
  rfl

/-- Witness for the amended C5 at the empty store. -/
theorem unknown_job_reports_pending_witness :
    get_job_status id id emptyStore "nojob" =
      ⟨"nojob", "pending", none, none, none⟩ :=
  unknown_job_reports_pending id id emptyStore "nojob" rfl

/-- A truthy optional string is present. -/
theorem truthy_isSome (o : Option String) (h : truthy o = true) :
    o.isSome = true := by
  cases o <;> simp_all [truthy]

/-- C6: every payload the status projector builds keeps `result` and `error`
mutually exclusive — a `complete` payload has a `result` and no `error`, a
`failed` payload has an `error` and no `result`. -/
theorem result_error_mutually_exclusive (urlFor absUrl : String → String)
    (job_id state info : String) (value : CeleryValue) :
    ((build_job_payload urlFor absUrl job_id state info value).status = "complete" →
      (build_job_payload urlFor absUrl job_id state info value).result.isSome = true
      ∧ (build_job_payload urlFor absUrl job_id state info value).error = none)
    ∧ ((build_job_payload urlFor absUrl job_id state info value).status = "failed" →
      (build_job_payload urlFor absUrl job_id state info value).error.isSome = true
      ∧ (build_job_payload urlFor absUrl job_id state info value).result = none) := by
  rcases value with _ | d | s <;>
    simp only [build_job_payload] <;>
    split_ifs <;>
    simp_all [truthy_isSome]

/-- Witness for C6 at a succeeded variation job. -/
theorem result_error_mutually_exclusive_witness :
    (build_job_payload id id "job1" "SUCCESS" "None"
      (.vdict variationDict)).result.isSome = true
    ∧ (build_job_payload id id "job1" "SUCCESS" "None"
        (.vdict variationDict)).error = none :=
  (result_error_mutually_exclusive id id "job1" "SUCCESS" "None"
    (.vdict variationDict)).1 (by decide)

/-! ## Helper lemmas on the status stream -/

/-- The emitted stream never repeats consecutive payloads, and its first
emission differs from the inherited `last_payload`. -/
theorem streamEvents_chain (tr : List JobPayload) :
    ∀ last, List.Chain' (fun a b => a ≠ b) (streamEvents tr last)
      ∧ (∀ q, (streamEvents tr last).head? = some q → some q ≠ last) := by
  induction tr with
  | nil => intro last; exact ⟨List.chain'_nil, by simp [streamEvents]⟩
  | cons p rest ih =>
    intro last
    unfold streamEvents
    split_ifs with h1 h2
    · refine ⟨List.chain'_singleton p, ?_⟩
      intro q hq
      simp only [List.head?_cons, Option.some.injEq] at hq
      rw [hq] at h1
      exact h1
    · refine ⟨?_, ?_⟩
      · rw [List.chain'_cons']
        refine ⟨?_, (ih (some p)).1⟩
        intro y hy
        have := (ih (some p)).2 y (by simpa using hy)
        intro hpy
        exact this (by rw [hpy])
      · intro q hq
        simp only [List.head?_cons, Option.some.injEq] at hq
        rw [hq] at h1
        exact h1
    · exact ⟨List.chain'_nil, by simp⟩
    · exact ih last

/-- Only the final emission of the stream can be terminal: every earlier
emission is non-terminal. -/
theorem streamEvents_no_terminal_before_last (tr : List JobPayload) :
    ∀ last, ∀ q ∈ (streamEvents tr last).dropLast, payloadTerminal q = false := by
  induction tr with
  | nil => intro last q hq; simp [streamEvents] at hq
  | cons p rest ih =>
    intro last q hq
    unfold streamEvents at hq
    split_ifs at hq with h1 h2 h3
    · simp at hq
    · rcases hl : streamEvents rest (some p) with _ | ⟨x, l⟩
      · rw [hl] at hq
        simp at hq
      · rw [hl, List.dropLast_cons₂] at hq
        rcases List.mem_cons.mp hq with hqp | hql
        · rw [hqp]
          simpa using h2
        · exact ih (some p) q (by rw [hl]; exact hql)
    · simp at hq
    · exact ih last q hq

/-- If the polled trace reaches a terminal payload, the stream's final
emission is terminal (the loop emits it and closes). -/
theorem streamEvents_last_terminal (tr : List JobPayload) :
    ∀ last, (∀ q, last = some q → payloadTerminal q = false) →
      (∃ p ∈ tr, payloadTerminal p = true) →
      ∃ p, (streamEvents tr last).getLast? = some p ∧ payloadTerminal p = true := by
  induction tr with
  | nil =>
    intro last _ hter
    simp at hter
  | cons p rest ih =>
    intro last hinv hter
    unfold streamEvents
    split_ifs with h1 h2
    · exact ⟨p, rfl, h2⟩
    · have hterm : ∃ x ∈ rest, payloadTerminal x = true := by
        rcases hter with ⟨x, hx, hxt⟩
        rcases List.mem_cons.mp hx with hxp | hxr
        · rw [hxp] at hxt
          rw [hxt] at h2
          simp at h2
        · exact ⟨x, hxr, hxt⟩
      obtain ⟨x, hx, hxt⟩ :=
        ih (some p)
          (fun q hq => by
            rw [Option.some.injEq] at hq
            rw [← hq]
            simpa using h2)
          hterm
      refine ⟨x, ?_, hxt⟩
      rcases hl : streamEvents rest (some p) with _ | ⟨y, l⟩
      · rw [hl] at hx
        simp at hx
      · rw [hl] at hx
        rw [List.getLast?_cons_cons]
        exact hx
    · exfalso
      have hpl : some p = last := not_not.mp (by assumption)
      have hp := hinv p hpl.symm
      simp_all
    · refine ih last hinv ?_
      rcases hter with ⟨x, hx, hxt⟩
      rcases List.mem_cons.mp hx with hxp | hxr
      · exfalso
        rw [hxp] at hxt
        simp_all
      · exact ⟨x, hxr, hxt⟩

/-- C9: for every polled trace of a streamed job, the stream (started with
`last_payload = None`) never emits two consecutive equal payloads; every
emission before the final one is non-terminal (so nothing is emitted after a
terminal event); and if the trace reaches a terminal payload, the stream's
last emission is terminal — after which the generator closes. -/
theorem stream_no_duplicates_terminal_last (tr : List JobPayload) :
    List.Chain' (fun a b => a ≠ b) (streamEvents tr none)
    ∧ (∀ q ∈ (streamEvents tr none).dropLast, payloadTerminal q = false)
    ∧ ((∃ p ∈ tr, payloadTerminal p = true) →
        ∃ p, (streamEvents tr none).getLast? = some p
          ∧ payloadTerminal p = true) :=
  ⟨(streamEvents_chain tr none).1,
   streamEvents_no_terminal_before_last tr none,
   streamEvents_last_terminal tr none (fun _ hq => by simp at hq)⟩

/-- Witness for C9 on a Pending, Pending, Running, Succeeded poll trace. -/
theorem stream_no_duplicates_terminal_last_witness :
    List.Chain' (fun a b => a ≠ b) (streamEvents pollTrace none)
    ∧ (∀ q ∈ (streamEvents pollTrace none).dropLast, payloadTerminal q = false)
    ∧ (∃ p, (streamEvents pollTrace none).getLast? = some p
        ∧ payloadTerminal p = true) :=
  ⟨(stream_no_duplicates_terminal_last pollTrace).1,
   (stream_no_duplicates_terminal_last pollTrace).2.1,
   (stream_no_duplicates_terminal_last pollTrace).2.2
     ⟨completePayload, by simp [pollTrace], rfl⟩⟩

end IVG
